import Mathlib

/-!
Verification development for pywizardlite.py: a shallow embedding of the
driver-acquisition pipeline, the version probe and the bounded wait loop of
the PyWizardLite class, together with theorems about their behaviour.

Conventions of the embedding:
* time is idealized: every time.sleep(s) advances the clock by exactly s
  seconds and every other operation is instantaneous, so int(end - start)
  equals the number of seconds slept so far;
* the external collaborators are parameters: the selenium driver is a
  function from the locator and the attempt index to the outcome of that
  find_element call, and the HTTP transport is a function from the
  argument record of requests.get to a response.
-/

namespace PyWizardLite

/-- Locator strategy constants of selenium By that element_dict maps to.
P_LINK_TEXT stands for the constant reached from the dict key
"PartialLinkText". -/
inductive By
  | CLASS_NAME
  | CSS_SELECTOR
  | ID
  | LINK_TEXT
  | NAME
  | P_LINK_TEXT
  | TAG_NAME
  | XPATH
  deriving DecidableEq

/-- Outcome of one driver.find_element call made by the wait loop. The element
value itself is irrelevant to the loop, which only compares it with None, so a
unit stands for it. raiseENF means the call raised ElementNotFound, the
exception class this module defines, which is the only class the except clause
of the loop catches; raiseOther means the call raised an exception of any
other class, recorded by name, for example the NoSuchElementException a real
selenium driver raises when the element is absent. -/
inductive FindResult
  | ret (element : Option Unit)
  | raiseENF
  | raiseOther (exc : String)
  deriving DecidableEq

/-- element_dict of wait_until_element_is_visible: maps the strategy-name key
to the selenium By constant; a key outside the table is a KeyError when looked
up inside the loop body. -/
def element_dict (element_by : String) : Option By :=
  if element_by = "ClassName" then some By.CLASS_NAME
  else if element_by = "CSSSelector" then some By.CSS_SELECTOR
  else if element_by = "ID" then some By.ID
  else if element_by = "LinkText" then some By.LINK_TEXT
  else if element_by = "Name" then some By.NAME
  else if element_by = "PartialLinkText" then some By.P_LINK_TEXT
  else if element_by = "TagName" then some By.TAG_NAME
  else if element_by = "XPath" then some By.XPATH
  else none

/-- found_wait_time of wait_until_element_is_visible: the settle delay in
seconds slept after a successful locate, before the loop breaks. -/
def found_wait_time : Nat := 1

/-- Result of one call to wait_until_element_is_visible. Every constructor
records the idealized elapsed seconds at the moment the call ends together
with the number of driver.find_element invocations made before that moment.
elementNotFound is the timeout raise of the loop; propagated is an exception
other than ElementNotFound escaping the try block to the caller; nameError is
the read of the local is_element_found before any assignment to it, which
happens when find_element returns None on the very first attempt; keyError is
a strategy name outside element_dict; fuelOut is the artificial bound of the
model and is unreachable from the entry point. -/
inductive WaitOutcome
  | success (elapsed calls : Nat)
  | elementNotFound (msg : String) (elapsed calls : Nat)
  | propagated (exc : String) (elapsed calls : Nat)
  | nameError (elapsed calls : Nat)
  | keyError (elapsed calls : Nat)
  | fuelOut
  deriving DecidableEq

/-- One while-True iteration of wait_until_element_is_visible, with fuel
making the recursion structural. flag is the local is_element_found: none
while still unassigned, some b after an assignment; the local keeps its
previous value across iterations and the model preserves that. The timeout
test precedes the locate attempt, matching the statement order of the source;
a non-timed-out iteration either breaks after the settle sleep, lets a foreign
exception escape, or sleeps one second and recurses. -/
def waitLoop (find : By → String → Nat → FindResult) (element_by element : String)
    (wait_time : Int) (calls elapsed : Nat) (flag : Option Bool) (fuel : Nat) :
    WaitOutcome :=
  match fuel with
  | 0 => WaitOutcome.fuelOut
  | fuel' + 1 =>
    if (elapsed : Int) ≥ wait_time then
      WaitOutcome.elementNotFound
        ("The element - " ++ element ++ " not found within the limited time!") elapsed calls
    else
      match element_dict element_by with
      | none => WaitOutcome.keyError elapsed calls
      | some strat =>
        match find strat element calls with
        | FindResult.raiseOther exc => WaitOutcome.propagated exc elapsed (calls + 1)
        | FindResult.raiseENF =>
          waitLoop find element_by element wait_time (calls + 1) (elapsed + 1) (some false) fuel'
        | FindResult.ret none =>
          match flag with
          | none => WaitOutcome.nameError elapsed (calls + 1)
          | some true => WaitOutcome.success (elapsed + found_wait_time) (calls + 1)
          | some false =>
            waitLoop find element_by element wait_time (calls + 1) (elapsed + 1) (some false) fuel'
        | FindResult.ret (some _) => WaitOutcome.success (elapsed + found_wait_time) (calls + 1)

/-- wait_until_element_is_visible: wait_time defaults to 60 when default_time
is None; the loop starts with zero elapsed time, zero calls and the local
is_element_found unassigned. The fuel bound wait_time.toNat + 1 is reached
only after the timeout test must already have fired, so the fuelOut outcome
never arises from this entry point. -/
def wait_until_element_is_visible (find : By → String → Nat → FindResult)
    (element_by element : String) (default_time : Option Int) : WaitOutcome :=
  let wait_time : Int := match default_time with | none => 60 | some t => t
  waitLoop find element_by element wait_time 0 0 none (wait_time.toNat + 1)

/-- Proxy dictionary built by set_proxy: the same proxy URL under the http and
the https keys. -/
structure ProxyMap where
  http : String
  https : String
  deriving DecidableEq

/-- set_proxy of the source: the guard is the Python truthiness test on
proxy_url, under which both None and the empty string are falsy, so only a
present non-empty proxy URL produces the dictionary applying it to both
schemes; otherwise the proxies argument is None. -/
def set_proxy (proxy_url : Option String) : Option ProxyMap :=
  match proxy_url with
  | some url => if url = "" then none else some (ProxyMap.mk url url)
  | none => none

/-- Argument record of the requests.get call issued by get_request. -/
structure RequestArgs where
  url : String
  proxies : Option ProxyMap
  stream : Option Bool
  timeout : Nat
  deriving DecidableEq

/-- get_request of the source: requests.get is called with the url, with
proxies set from set_proxy, with the callers stream flag, and with the literal
timeout 120 in every call. The record is exactly what the HTTP capability
receives. -/
def get_request (url : String) (proxy_url : Option String) (_stream : Option Bool) :
    RequestArgs :=
  RequestArgs.mk url (set_proxy proxy_url) _stream 120

/-- HTTP response as the pipeline consumes it: the text body for the release
lookup, and the entry names of the zip archive carried by the content bytes
for the download step. -/
structure Response where
  text : String
  entries : List String

/-- Errors of the acquisition pipeline, named as in the specification
taxonomy. VersionNotFound models the TypeError raised by re.search when the
version is None; MalformedVersion models the AttributeError raised by calling
group() on a failed match; ExtractionFailed models the KeyError raised by
ZipFile.extract when the entry is missing from the archive. -/
inductive AcqError
  | VersionNotFound
  | MalformedVersion
  | ExtractionFailed
  deriving DecidableEq

/-- The produced driver file: its name, extracted into the current working
directory, and the permission bits chmod set on it. -/
structure DriverHandle where
  name : String
  mode : Nat
  deriving DecidableEq

/-- base_url of download_chrome_web_driver. -/
def base_url : String := "https://chromedriver.storage.googleapis.com"

/-- Python str.strip with no argument: drops whitespace from both ends.
Defined structurally over the character list so that it evaluates; used where
the source calls strip. -/
def py_strip (s : String) : String :=
  String.mk (((s.data.dropWhile Char.isWhitespace).reverse.dropWhile Char.isWhitespace).reverse)

/-- Leading run of decimal digits of a character list. -/
def leadingDigits : List Char → List Char
  | [] => []
  | c :: cs => if c.isDigit then c :: leadingDigits cs else []

/-- The re.search call on the version string with the pattern of one leading
digit run: some matched text when the string starts with a digit, none
otherwise. -/
def re_search_leading_digits (s : String) : Option String :=
  if (leadingDigits s.data).isEmpty then none else some (String.mk (leadingDigits s.data))

/-- extract_zip of the source: the driver file name is the fixed literal and
that entry is extracted from the in-memory archive into the current working
directory; a missing entry is a KeyError, reported as ExtractionFailed. -/
def extract_zip (file_response : Response) : Except AcqError String :=
  if file_response.entries.contains "chromedriver.exe" then Except.ok "chromedriver.exe"
  else Except.error AcqError.ExtractionFailed

/-- set_execusion_permission of the source: os.chmod of the extracted driver
with mode 0o755. -/
def set_execusion_permission (driver : String) : DriverHandle :=
  DriverHandle.mk driver 0o755

/-- download_chrome_web_driver of the source, strictly sequential: probe
result, major-version extraction, release lookup, archive download,
extraction, permission setting. The function returns the pipeline result
together with the list of HTTP requests issued, in order. -/
def download_chrome_web_driver (machine_chrome_version : Option String)
    (oracle : RequestArgs → Response) (proxy_url : Option String) :
    Except AcqError DriverHandle × List RequestArgs :=
  match machine_chrome_version with
  | none => (Except.error AcqError.VersionNotFound, [])
  | some version =>
    match re_search_leading_digits version with
    | none => (Except.error AcqError.MalformedVersion, [])
    | some major_version =>
      let version_latest_release := base_url ++ "/LATEST_RELEASE_" ++ major_version
      let req1 := get_request version_latest_release proxy_url none
      let ver_lat_rel := py_strip (oracle req1).text
      let content_response := base_url ++ "/" ++ ver_lat_rel ++ "/chromedriver_win32.zip"
      let req2 := get_request content_response proxy_url (some true)
      match extract_zip (oracle req2) with
      | Except.error e => (Except.error e, [req1, req2])
      | Except.ok driver => (Except.ok (set_execusion_permission driver), [req1, req2])

/-- system_requirements of the source: True exactly when sys.platform is the
string win32. -/
def system_requirements (platform : String) : Bool :=
  platform = "win32"

/-- Result of setup_chrome_web_driver: either the pipeline ran, with its
result and its request log, or the process printed the diagnostic and called
sys.exit with the given code, having issued the listed requests. -/
inductive SetupOutcome
  | ran (result : Except AcqError DriverHandle) (log : List RequestArgs)
  | exited (printed : String) (code : Nat) (log : List RequestArgs)

/-- setup_chrome_web_driver of the source: download when the platform check
passes, otherwise print the diagnostic and sys.exit(0) without touching the
network. -/
def setup_chrome_web_driver (platform : String) (machine_chrome_version : Option String)
    (oracle : RequestArgs → Response) (proxy_url : Option String) : SetupOutcome :=
  if system_requirements platform then
    let r := download_chrome_web_driver machine_chrome_version oracle proxy_url
    SetupOutcome.ran r.1 r.2
  else
    SetupOutcome.exited "System does not meet the requirements" 0 []

/-- first_hit_template of construct_powershell_commands: wraps one probe
expression so that a truthy result is echoed and the composed script exits. -/
def first_hit_template (expression : String) : String :=
  "$tmp = " ++ expression ++ "; if ($tmp) \x7becho $tmp; Exit;\x7d;"

/-- COMMANDS of the source: the fixed, ordered list of host probe
expressions. -/
def COMMANDS : List String :=
  [ "(Get-Item -Path \"$env:LOCALAPPDATA\\Google\\Chrome\\Application\\chrome.exe\").VersionInfo.FileVersion"
  , "(Get-Item -Path \"$env:PROGRAMFILES\\Google\\Chrome\\Application\\chrome.exe\").VersionInfo.FileVersion"
  , "(Get-Item -Path \"$env:PROGRAMFILES (x86)\\Google\\Chrome\\Application\\chrome.exe\").VersionInfo.FileVersion"
  , "(Get-ItemProperty -Path Registry::\"HKCU\\SOFTWARE\\Google\\Chrome\\BLBeacon\").version"
  , "(Get-ItemProperty -Path Registry::\"HKLM\\SOFTWARE\\Wow6432Node\\Microsoft\\Windows\\CurrentVersion\\Uninstall\\Google Chrome\").version" ]

/-- construct_powershell_commands of the source: the composed No-Profile
powershell invocation over the wrapped expressions, with errors silenced. -/
def construct_powershell_commands (commands : List String) : String :=
  "powershell -NoProfile \"" ++
    ("$ErrorActionPreference=\x27silentlycontinue\x27; " ++
      String.intercalate " " (commands.map first_hit_template)) ++ "\""

/-- Modelled from the spec: the host shell execution of the composed script is
not part of the repository, so its first-hit semantics is taken from the
specification words: the wrapped queries run in order, a query whose output is
non-empty echoes that output and stops the script, errors of an individual
query are suppressed, and the combined stdout of a run where nothing hits is
empty. Given the per-query outputs, the function returns the combined stdout
together with the number of queries that were executed. -/
def run_host_script : List String → String × Nat
  | [] => ("", 0)
  | o :: rest =>
    if o = "" then
      ((run_host_script rest).1, (run_host_script rest).2 + 1)
    else (o, 1)

/-- get_chrome_version of the source: run the composed script and return the
stripped stdout, or None when the stdout is empty, by Python string
truthiness. Stated over the per-query outputs of an arbitrary ordered query
list. -/
def get_chrome_version (outputs : List String) : Option String :=
  if (run_host_script outputs).1 = "" then none
  else some (py_strip (run_host_script outputs).1)

/-- Driver stub whose find_element always raises NoSuchElementException, the
exception a real selenium driver raises when the element is absent. -/
def stubNoSuch : By → String → Nat → FindResult :=
  fun _ _ _ => FindResult.raiseOther "NoSuchElementException"

/-- Driver stub whose find_element always raises the ElementNotFound class of
this module. -/
def stubAlwaysENF : By → String → Nat → FindResult :=
  fun _ _ _ => FindResult.raiseENF

/-- Driver stub failing with ElementNotFound on the first two attempts and
returning an element on the third. -/
def stubThird : By → String → Nat → FindResult :=
  fun _ _ k => if k < 2 then FindResult.raiseENF else FindResult.ret (some Unit.unit)

/-- Driver stub failing with ElementNotFound on the first attempt and
returning an element on the second. -/
def stubSecond : By → String → Nat → FindResult :=
  fun _ _ k => if k < 1 then FindResult.raiseENF else FindResult.ret (some Unit.unit)

/-- HTTP oracle returning an empty response to every request. -/
def emptyResponseOracle : RequestArgs → Response :=
  fun _ => Response.mk "" []

/-- HTTP oracle returning a release text and an archive containing the driver
entry, to every request. -/
def zipOracle : RequestArgs → Response :=
  fun _ => Response.mk "114.0.5735.90" ["chromedriver.exe"]

/-- Claim C1, evaluation of the code bug: a driver stub whose find_element
raises NoSuchElementException on every attempt, which is the failure mode of a
real selenium driver, makes wait_until_element_is_visible propagate that
exception to the caller on the very first poll, at elapsed 0 after one locate
call, instead of absorbing it and continuing to poll: the except clause of the
loop catches only the ElementNotFound class this module itself defines. -/
theorem wait_locate_failure_propagates :
    wait_until_element_is_visible stubNoSuch "XPath" "submit-button" (some 60) =
      WaitOutcome.propagated "NoSuchElementException" 0 1 := rfl

/-- Timeout behaviour of the wait loop when every locate attempt raises
ElementNotFound: the loop raises exactly when total_time reaches the budget,
having made one locate call per elapsed second. -/
theorem waitLoop_timeout_of_raiseENF (find : By → String → Nat → FindResult)
    (element_by element : String) (strat : By) (N : Nat)
    (hdict : element_dict element_by = some strat)
    (hfind : ∀ k, find strat element k = FindResult.raiseENF) :
    ∀ fuel elapsed calls flag, elapsed ≤ N → fuel = N - elapsed + 1 →
      waitLoop find element_by element (N : Int) calls elapsed flag fuel =
        WaitOutcome.elementNotFound
          ("The element - " ++ element ++ " not found within the limited time!") N
          (calls + (N - elapsed)) := by
  intro fuel
  induction fuel with
  | zero =>
    intro elapsed calls flag h1 h2
    omega
  | succ f ih =>
    intro elapsed calls flag h1 h2
    rcases Nat.lt_or_ge elapsed N with hlt | hge
    · have hcond : ¬ ((elapsed : Int) ≥ (N : Int)) := by omega
      simp only [waitLoop, if_neg hcond, hdict, hfind]
      rw [ih (elapsed + 1) (calls + 1) (some false) (by omega) (by omega)]
      have e : calls + 1 + (N - (elapsed + 1)) = calls + (N - elapsed) := by omega
      rw [e]
    · have he : elapsed = N := by omega
      subst he
      have hcond : ((elapsed : Int) ≥ (elapsed : Int)) := le_refl _
      simp only [waitLoop, if_pos hcond]
      have e : elapsed - elapsed = 0 := by omega
      rw [e, Nat.add_zero]

/-- Claim C2, amended: for every wait budget of N seconds and every driver
stub whose locate calls always fail by raising ElementNotFound, the failure
mode the loop absorbs, the wait raises ElementNotFound exactly at elapsed N
seconds, so at least N and below N + 1 and never earlier, after N locate
calls, and the message embeds the literal target string between the two fixed
message parts. -/
theorem wait_timeout_exact (N : Nat) (find : By → String → Nat → FindResult)
    (element_by element : String) (strat : By)
    (hdict : element_dict element_by = some strat)
    (hfind : ∀ k, find strat element k = FindResult.raiseENF) :
    wait_until_element_is_visible find element_by element (some (N : Int)) =
      WaitOutcome.elementNotFound
        ("The element - " ++ element ++ " not found within the limited time!") N N := by
  have h := waitLoop_timeout_of_raiseENF find element_by element strat N hdict hfind
    ((N : Int).toNat + 1) 0 0 none (by omega) (by omega)
  simpa [wait_until_element_is_visible] using h

/-- Claim C2 witness: the amended timeout theorem applied at budget 2 with
the always-raising stub. -/
theorem wait_timeout_exact_w :
    wait_until_element_is_visible stubAlwaysENF "ID" "x" (some ((2 : Nat) : Int)) =
      WaitOutcome.elementNotFound
        ("The element - " ++ "x" ++ " not found within the limited time!") 2 2 :=
  wait_timeout_exact 2 stubAlwaysENF "ID" "x" By.ID (by decide) (fun _ => rfl)

/-- Claim C2 counterexample: a stub that never succeeds but fails with
NoSuchElementException makes the wait propagate that exception at elapsed 0
instead of raising ElementNotFound inside the budget window. -/
theorem wait_timeout_cex :
    wait_until_element_is_visible stubNoSuch "XPath" "q" (some 5) =
      WaitOutcome.propagated "NoSuchElementException" 0 1 := rfl

/-- Success behaviour of the wait loop: m attempts raising ElementNotFound
followed by a non-null locate make the loop sleep the settle second and
return at elapsed m + 1. -/
theorem waitLoop_success_of_raiseENF (find : By → String → Nat → FindResult)
    (element_by element : String) (strat : By) (N : Nat)
    (hdict : element_dict element_by = some strat) :
    ∀ m fuel elapsed calls flag,
      (∀ i, i < m → find strat element (calls + i) = FindResult.raiseENF) →
      find strat element (calls + m) = FindResult.ret (some Unit.unit) →
      elapsed + m < N → m + 1 ≤ fuel →
      waitLoop find element_by element (N : Int) calls elapsed flag fuel =
        WaitOutcome.success (elapsed + m + 1) (calls + m + 1) := by
  intro m
  induction m with
  | zero =>
    intro fuel elapsed calls flag hfail hsucc hlt hfuel
    obtain ⟨f, rfl⟩ : ∃ f, fuel = f + 1 := ⟨fuel - 1, by omega⟩
    have hcond : ¬ ((elapsed : Int) ≥ (N : Int)) := by omega
    have hs : find strat element calls = FindResult.ret (some Unit.unit) := by
      simpa using hsucc
    simp only [waitLoop, if_neg hcond, hdict, hs, found_wait_time]
  | succ m ih =>
    intro fuel elapsed calls flag hfail hsucc hlt hfuel
    obtain ⟨f, rfl⟩ : ∃ f, fuel = f + 1 := ⟨fuel - 1, by omega⟩
    have hcond : ¬ ((elapsed : Int) ≥ (N : Int)) := by omega
    have h0 : find strat element calls = FindResult.raiseENF := by
      have h := hfail 0 (by omega)
      simpa using h
    simp only [waitLoop, if_neg hcond, hdict, h0]
    have hfail1 : ∀ i, i < m → find strat element (calls + 1 + i) = FindResult.raiseENF := by
      intro i hi
      have h := hfail (i + 1) (by omega)
      have e : calls + (i + 1) = calls + 1 + i := by omega
      rwa [e] at h
    have hsucc1 : find strat element (calls + 1 + m) = FindResult.ret (some Unit.unit) := by
      have e : calls + (m + 1) = calls + 1 + m := by omega
      rwa [e] at hsucc
    rw [ih f (elapsed + 1) (calls + 1) (some false) hfail1 hsucc1 (by omega) (by omega)]
    have e1 : elapsed + 1 + m + 1 = elapsed + (m + 1) + 1 := by omega
    have e2 : calls + 1 + m + 1 = calls + (m + 1) + 1 := by omega
    rw [e1, e2]

/-- Claim C6, amended: a driver stub whose locate raises ElementNotFound on
the first m attempts and returns a non-null element on attempt m + 1, with m
below the budget, makes the wait sleep the one-second settle delay after the
successful locate and return normally, never raising, at m + 1 seconds
elapsed: m one-second polling ticks plus one settle second. In particular
success on the 3rd attempt returns at 3 seconds elapsed, not 4. -/
theorem wait_success_settle (N m : Nat) (find : By → String → Nat → FindResult)
    (element_by element : String) (strat : By)
    (hdict : element_dict element_by = some strat)
    (hfail : ∀ i, i < m → find strat element i = FindResult.raiseENF)
    (hsucc : find strat element m = FindResult.ret (some Unit.unit))
    (hm : m < N) :
    wait_until_element_is_visible find element_by element (some (N : Int)) =
      WaitOutcome.success (m + 1) (m + 1) := by
  have h := waitLoop_success_of_raiseENF find element_by element strat N hdict m
    ((N : Int).toNat + 1) 0 0 none
    (by
      intro i hi
      simpa using hfail i hi)
    (by simpa using hsucc)
    (by omega) (by omega)
  simpa [wait_until_element_is_visible] using h

/-- Claim C6 witness: the amended success theorem applied at budget 10 with
the stub succeeding on the second attempt: normal return at 2 seconds after 2
locate calls. -/
theorem wait_success_settle_w :
    wait_until_element_is_visible stubSecond "ID" "w" (some ((10 : Nat) : Int)) =
      WaitOutcome.success 2 2 :=
  wait_success_settle 10 1 stubSecond "ID" "w" By.ID (by decide)
    (fun i hi => by
      have e : i = 0 := by omega
      subst e
      rfl)
    rfl (by omega)

/-- Claim C6 counterexample: with the 3rd attempt succeeding under a budget of
60 seconds the wait returns at 3 seconds elapsed, two one-second polling ticks
plus the settle second, after 3 locate calls, and not at approximately 4
seconds as claimed. -/
theorem wait_success_third_cex :
    wait_until_element_is_visible stubThird "XPath" "btn" (some 60) =
      WaitOutcome.success 3 3 := rfl

/-- Claim C9: for every wait budget at most 0 the wait raises ElementNotFound
immediately on the first iteration, at elapsed 0 and with zero locate calls
made against the driver, whatever the driver and the strategy name are: the
elapsed-time test precedes the locate attempt in every iteration. -/
theorem wait_nonpositive_budget (find : By → String → Nat → FindResult)
    (element_by element : String) (d : Int) (hd : d ≤ 0) :
    wait_until_element_is_visible find element_by element (some d) =
      WaitOutcome.elementNotFound
        ("The element - " ++ element ++ " not found within the limited time!") 0 0 := by
  have hcond : (((0 : Nat) : Int) ≥ d) := by omega
  have hfuel : d.toNat + 1 = 1 := by omega
  simp only [wait_until_element_is_visible, hfuel, waitLoop, if_pos hcond]

/-- Claim C9 witness: budget 0 with the never-succeeding stub: immediate
ElementNotFound at elapsed 0 with zero locate calls. -/
theorem wait_nonpositive_budget_w :
    wait_until_element_is_visible stubNoSuch "XPath" "z" (some 0) =
      WaitOutcome.elementNotFound
        ("The element - " ++ "z" ++ " not found within the limited time!") 0 0 :=
  wait_nonpositive_budget stubNoSuch "XPath" "z" 0 (by decide)

/-- Helper: the composed script stops at the first non-empty query output,
having executed the preceding queries and the winner only. -/
theorem run_host_script_winner (q : String) (hq : q ≠ "") :
    ∀ pre post, (∀ r ∈ pre, r = "") →
      run_host_script (pre ++ q :: post) = (q, pre.length + 1) := by
  intro pre
  induction pre with
  | nil =>
    intro post _
    simp [run_host_script, hq]
  | cons r rs ih =>
    intro post h
    have hr : r = "" := h r (by simp)
    subst hr
    simp [run_host_script, ih post (fun x hx => h x (by simp [hx]))]

/-- Helper: a run where no query produces output has empty combined stdout. -/
theorem run_host_script_all_empty :
    ∀ outputs, (∀ r ∈ outputs, r = "") → (run_host_script outputs).1 = "" := by
  intro outputs
  induction outputs with
  | nil =>
    intro _
    rfl
  | cons r rs ih =>
    intro h
    have hr : r = "" := h r (by simp)
    subst hr
    simp [run_host_script, ih (fun x hx => h x (by simp [hx]))]

/-- Claim C3: when exactly one query in the ordered list produces non-empty
output, the probe returns the stripped output of that query wherever it sits,
and the queries after the winner are not executed; when no query produces
output the probe returns None rather than an error. -/
theorem version_probe_first_hit :
    (∀ pre q post, (∀ r ∈ pre, r = "") → q ≠ "" →
      get_chrome_version (pre ++ q :: post) = some (py_strip q) ∧
      (run_host_script (pre ++ q :: post)).2 = pre.length + 1) ∧
    (∀ outputs, (∀ r ∈ outputs, r = "") → get_chrome_version outputs = none) := by
  constructor
  · intro pre q post hpre hq
    have hw := run_host_script_winner q hq pre post hpre
    constructor
    · simp [get_chrome_version, hw, hq]
    · simp [hw]
  · intro outputs h
    have he := run_host_script_all_empty outputs h
    simp [get_chrome_version, he]

/-- Claim C3 witness: a query list with empty, winning and trailing outputs:
the probe returns the winner stripped, and exactly two queries ran. -/
theorem version_probe_first_hit_w :
    get_chrome_version ["", "119.0.6045.105", ""] = some "119.0.6045.105" ∧
    (run_host_script ["", "119.0.6045.105", ""]).2 = 2 := by
  have h := version_probe_first_hit.1 [""] "119.0.6045.105" [""]
    (by decide) (by decide)
  exact ⟨h.1, h.2⟩

/-- Claim C4: major-version extraction takes the leading digit run, so the
version string 119.0.6045.105 yields 119; and for every version string with
no leading digit the pipeline fails with MalformedVersion, issuing no
request. -/
theorem major_version_extraction :
    re_search_leading_digits "119.0.6045.105" = some "119" ∧
    (∀ v (oracle : RequestArgs → Response) (proxy_url : Option String),
      (v.data.head?.all fun c => !c.isDigit) = true →
      download_chrome_web_driver (some v) oracle proxy_url =
        (Except.error AcqError.MalformedVersion, [])) := by
  constructor
  · decide
  · intro v oracle proxy_url h
    have hnone : re_search_leading_digits v = none := by
      unfold re_search_leading_digits
      cases hv : v.data with
      | nil => simp [leadingDigits]
      | cons c cs =>
        rw [hv] at h
        simp [Option.all] at h
        simp [leadingDigits, h]
    simp [download_chrome_web_driver, hnone]

/-- Claim C4 witness: a version string starting with a letter makes the
pipeline fail with MalformedVersion and an empty request log. -/
theorem major_version_extraction_w :
    download_chrome_web_driver (some "v119") emptyResponseOracle none =
      (Except.error AcqError.MalformedVersion, []) :=
  major_version_extraction.2 "v119" emptyResponseOracle none (by decide)

/-- Claim C5: an absent probe result makes the pipeline fail with the distinct
error VersionNotFound, with an empty request log, for every oracle and proxy:
it stops before deriving a major version and before any network request. -/
theorem version_not_found_stops (oracle : RequestArgs → Response)
    (proxy_url : Option String) :
    download_chrome_web_driver none oracle proxy_url =
      (Except.error AcqError.VersionNotFound, []) := rfl

/-- Claim C7: when the platform check fails, setup prints the diagnostic and
exits the process with code 0, and the request log is empty: the fetcher is
never invoked. -/
theorem unsupported_host_exit (platform : String) (machine_chrome_version : Option String)
    (oracle : RequestArgs → Response) (proxy_url : Option String)
    (h : system_requirements platform = false) :
    setup_chrome_web_driver platform machine_chrome_version oracle proxy_url =
      SetupOutcome.exited "System does not meet the requirements" 0 [] := by
  simp [setup_chrome_web_driver, h]

/-- Claim C7 witness: setup on the platform string linux: diagnostic printed,
exit code 0, no request issued. -/
theorem unsupported_host_exit_w :
    setup_chrome_web_driver "linux" none emptyResponseOracle none =
      SetupOutcome.exited "System does not meet the requirements" 0 [] :=
  unsupported_host_exit "linux" none emptyResponseOracle none (by decide)

/-- Claim C8 counterexample: for the present but empty proxy URL the request
record carries no proxy map at all, because the source guards set_proxy with
the Python truthiness test on proxy_url and the empty string is falsy; the
claim as stated asserts a proxy map applying that URL to both schemes. -/
theorem fetcher_empty_proxy_cex :
    get_request "http://example.com" (some "") none =
      RequestArgs.mk "http://example.com" none none 120 := rfl

/-- Claim C8, amended: the request record handed to the HTTP capability
carries the single proxy URL under both the http and the https keys whenever
a non-empty proxy URL is present, carries no proxy map at all when no proxy
is given or when the given proxy URL is the empty string, which the Python
truthiness guard treats as absent, and always carries the fixed 120-second
timeout, for every url and stream flag. -/
theorem fetcher_proxy_and_timeout :
    (∀ url proxy_url sflag, proxy_url ≠ "" →
      get_request url (some proxy_url) sflag =
        RequestArgs.mk url (some (ProxyMap.mk proxy_url proxy_url)) sflag 120) ∧
    (∀ url sflag, get_request url none sflag =
      RequestArgs.mk url none sflag 120) ∧
    (∀ url sflag, get_request url (some "") sflag =
      RequestArgs.mk url none sflag 120) := by
  refine ⟨fun url proxy_url sflag h => ?_, fun _ _ => rfl, fun _ _ => rfl⟩
  simp [get_request, set_proxy, h]

/-- Claim C8 witness: the amended fetcher theorem applied to a concrete url
and a concrete non-empty proxy URL. -/
theorem fetcher_proxy_and_timeout_w :
    get_request "https://example.org" (some "http://proxy:8080") (some true) =
      RequestArgs.mk "https://example.org"
        (some (ProxyMap.mk "http://proxy:8080" "http://proxy:8080")) (some true) 120 :=
  fetcher_proxy_and_timeout.1 "https://example.org" "http://proxy:8080" (some true)
    (by decide)

/-- Helper: extract_zip only ever succeeds with the fixed entry name. -/
theorem extract_zip_ok (r : Response) (d : String)
    (h : extract_zip r = Except.ok d) : d = "chromedriver.exe" := by
  unfold extract_zip at h
  split at h
  · injection h with h
    exact h.symm
  · exact Except.noConfusion h

/-- Claim C10: every successful acquisition produces a handle whose file name
is the fixed literal chromedriver.exe, extracted into the current working
directory, with permission bits exactly 0o755, for every probe result, oracle
and proxy. -/
theorem driver_fixed_name_and_mode (machine_chrome_version : Option String)
    (oracle : RequestArgs → Response) (proxy_url : Option String)
    (handle : DriverHandle) (log : List RequestArgs)
    (h : download_chrome_web_driver machine_chrome_version oracle proxy_url =
      (Except.ok handle, log)) :
    handle.name = "chromedriver.exe" ∧ handle.mode = 0o755 := by
  cases machine_chrome_version with
  | none => simp [download_chrome_web_driver] at h
  | some version =>
    cases hre : re_search_leading_digits version with
    | none => simp [download_chrome_web_driver, hre] at h
    | some major =>
      simp only [download_chrome_web_driver, hre] at h
      split at h
      · simp at h
      · rename_i driver heq
        have hd := extract_zip_ok _ _ heq
        subst hd
        have hh : set_execusion_permission "chromedriver.exe" = handle := by
          have h1 := congrArg Prod.fst h
          simpa using h1
        subst hh
        exact ⟨rfl, rfl⟩

/-- Claim C10 witness: a concrete successful acquisition: the handle is the
file chromedriver.exe with mode 0o755. -/
theorem driver_fixed_name_and_mode_w :
    (DriverHandle.mk "chromedriver.exe" 0o755).name = "chromedriver.exe" ∧
    (DriverHandle.mk "chromedriver.exe" 0o755).mode = 0o755 :=
  driver_fixed_name_and_mode (some "119.0.6045.105") zipOracle none
    (DriverHandle.mk "chromedriver.exe" 0o755)
    [get_request (base_url ++ "/LATEST_RELEASE_119") none none,
      get_request (base_url ++ "/114.0.5735.90/chromedriver_win32.zip") none (some true)]
    rfl

end PyWizardLite
